import Mathlib

/-!
Shallow embedding of the Monte-Carlo wealth simulator from
`wealth-simulator/src/App.jsx` (the `runSimulation` callback and the
`generateGaussian` utility), together with theorems checking the
specification's claims about it.

Modelling conventions:
* JavaScript numbers are idealised as exact rationals (`ℚ`); ages and year
  counters are integers / naturals.
* The Box–Muller sampler's transcendental part is abstracted as an input
  `z` (the standard-normal variate computed from the two uniform draws);
  only the affine arithmetic `mean + z * stdDev` is kept.  A whole batch is
  therefore a deterministic function of the parameters and a matrix
  `zM : ℕ → ℕ → ℚ` of per-simulation, per-year variates.
* JavaScript array accesses that can yield `undefined` are modelled with
  `Option` / `getD`; the one place the code can actually throw a
  `TypeError` (reading `.p50` of `undefined` when `probabilityData` is
  empty) makes the final result an `Option`, with `none` for the throw.
-/

namespace WealthSim

/-- Box–Muller sampler (`generateGaussian`, App.jsx lines 10–16).  The two
rejected-at-zero uniform draws only enter through the standard-normal
variate `z = sqrt (-2 ln u) * cos (2 pi v)`, which we abstract as an input;
the sampler then returns `mean + z * stdDev`. -/
def generateGaussian (mean stdDev z : ℚ) : ℚ :=
  mean + z * stdDev

/-- The simulation parameters: the fields of the `params` state object read
by `runSimulation` (App.jsx lines 132–165). -/
structure Params where
  currentAge : ℤ
  retirementAge : ℤ
  lifeExpectancy : ℤ
  taxableBalance : ℚ
  taxableContribution : ℚ
  preTaxBalance : ℚ
  preTaxContribution : ℚ
  rothBalance : ℚ
  rothContribution : ℚ
  minSpending : ℚ
  discretionarySpending : ℚ
  spendingCutFlexibility : ℚ
  fixedIncomeAnnual : ℚ
  fixedIncomeStartAge : ℤ
  expectedReturn : ℚ
  volatility : ℚ
  incomeTaxRate : ℚ
  capitalGainsInclusion : ℚ
deriving DecidableEq

/-- The three account balances of one simulated path
(`bTaxable`, `bPreTax`, `bRoth`, App.jsx lines 199–201). -/
structure Balances where
  taxable : ℚ
  pretax : ℚ
  roth : ℚ
deriving DecidableEq

/-- Total balance, `bTaxable + bPreTax + bRoth`. -/
def Balances.total (b : Balances) : ℚ :=
  b.taxable + b.pretax + b.roth

/-- Starting balances of a path (App.jsx lines 199–201). -/
def initialBalances (p : Params) : Balances :=
  ⟨p.taxableBalance, p.preTaxBalance, p.rothBalance⟩

/-- `startTotalNetWorth` (App.jsx line 189). -/
def startTotalNetWorth (p : Params) : ℚ :=
  p.taxableBalance + p.preTaxBalance + p.rothBalance

/-- Growth step: all three accounts are multiplied by `1 + realReturn`
(App.jsx lines 217–219). -/
def applyGrowth (b : Balances) (r : ℚ) : Balances :=
  ⟨b.taxable * (1 + r), b.pretax * (1 + r), b.roth * (1 + r)⟩

/-- Accumulation-phase contributions (App.jsx lines 226–228). -/
def applyContributions (p : Params) (b : Balances) : Balances :=
  ⟨b.taxable + p.taxableContribution,
   b.pretax + p.preTaxContribution,
   b.roth + p.rothContribution⟩

/-- Withdrawal stage A, the taxable account (App.jsx lines 273–288).
State is `(remainingNetNeed, balances)`.  The effective tax factor is
`1 - inclusionRate * taxRate`, clamped to `0.01` when non-positive. -/
def taxableStep (p : Params) (s : ℚ × Balances) : ℚ × Balances :=
  let need := s.1
  let b := s.2
  if need > 0 ∧ b.taxable > 0 then
    let inclusionRate := p.capitalGainsInclusion / 100
    let taxRate := p.incomeTaxRate / 100
    let effectiveTaxFactor := 1 - inclusionRate * taxRate
    let divisor := if effectiveTaxFactor ≤ 0 then 1 / 100 else effectiveTaxFactor
    let grossNeeded := need / divisor
    if b.taxable ≥ grossNeeded then
      (0, { b with taxable := b.taxable - grossNeeded })
    else
      (need - b.taxable * divisor, { b with taxable := 0 })
  else s

/-- Withdrawal stage B, the pre-tax account (App.jsx lines 291–305), with
effective factor `1 - taxRate`, clamped the same way. -/
def preTaxStep (p : Params) (s : ℚ × Balances) : ℚ × Balances :=
  let need := s.1
  let b := s.2
  if need > 0 ∧ b.pretax > 0 then
    let taxRate := p.incomeTaxRate / 100
    let effectiveTaxFactor := 1 - taxRate
    let divisor := if effectiveTaxFactor ≤ 0 then 1 / 100 else effectiveTaxFactor
    let grossNeeded := need / divisor
    if b.pretax ≥ grossNeeded then
      (0, { b with pretax := b.pretax - grossNeeded })
    else
      (need - b.pretax * divisor, { b with pretax := 0 })
  else s

/-- Withdrawal stage C, the roth account, untaxed (App.jsx lines 308–316). -/
def rothStep (s : ℚ × Balances) : ℚ × Balances :=
  let need := s.1
  let b := s.2
  if need > 0 ∧ b.roth > 0 then
    if b.roth ≥ need then
      (0, { b with roth := b.roth - need })
    else
      (need - b.roth, { b with roth := 0 })
  else s

/-- The ordered withdrawal routine, taxable → pre-tax → roth
(App.jsx lines 269–317); returns the balances after the three stages. -/
def withdraw (p : Params) (need : ℚ) (b : Balances) : Balances :=
  (rothStep (preTaxStep p (taxableStep p (need, b)))).2

/-- Dynamic-spending adjustment of the portfolio withdrawal
(App.jsx lines 245–261): when the portfolio is needed and this period's
gain fell short, cut up to `discretionarySpending * flexibility/100`. -/
def actualPortfolioWithdrawal (p : Params) (gain portfolioNeed : ℚ) : ℚ :=
  if portfolioNeed > 0 then
    if gain < portfolioNeed then
      let shortfall := portfolioNeed - gain
      let maxCutAmount := p.discretionarySpending * (p.spendingCutFlexibility / 100)
      let actualCut := min shortfall maxCutAmount
      portfolioNeed - actualCut
    else portfolioNeed
  else portfolioNeed

/-- `currentFixedIncome` (App.jsx line 240). -/
def currentFixedIncome (p : Params) (age : ℤ) : ℚ :=
  if age ≥ p.fixedIncomeStartAge then p.fixedIncomeAnnual else 0

/-- `portfolioNeed = baseTarget - currentFixedIncome` (App.jsx lines 237–243). -/
def portfolioNeed (p : Params) (age : ℤ) : ℚ :=
  p.minSpending + p.discretionarySpending - currentFixedIncome p age

/-- One retired-period cashflow (App.jsx lines 233–317): compute the gain
against the pre-growth snapshot `startTotal`, adjust the withdrawal for a
bad year, then either deposit the surplus into the taxable account or run
the ordered withdrawal. -/
def decumulate (p : Params) (age : ℤ) (startTotal : ℚ) (b : Balances) : Balances :=
  let gain := b.total - startTotal
  let aw := actualPortfolioWithdrawal p gain (portfolioNeed p age)
  if aw < 0 then
    { b with taxable := b.taxable + |aw| }
  else
    withdraw p aw b

/-- Floor every account at zero (App.jsx lines 322–324). -/
def floorZero (b : Balances) : Balances :=
  ⟨max b.taxable 0, max b.pretax 0, max b.roth 0⟩

/-- One iteration of the inner year loop (App.jsx lines 203–331): growth and
cashflow are skipped in year 0, then the floor is applied unconditionally.
`z year` is the standard-normal variate consumed that year. -/
def yearStep (p : Params) (z : ℕ → ℚ) (year : ℕ) (b : Balances) : Balances :=
  let age := p.currentAge + (year : ℤ)
  let isRetired := age ≥ p.retirementAge
  let startTotal := b.total
  let realReturn := generateGaussian (p.expectedReturn / 100) (p.volatility / 100) (z year)
  let b1 := if year > 0 then applyGrowth b realReturn else b
  let b2 :=
    if year > 0 then
      if isRetired then decumulate p age startTotal b1
      else applyContributions p b1
    else b1
  floorZero b2

/-- Balances recorded at the end of the loop body for each year. -/
def balAt (p : Params) (z : ℕ → ℚ) : ℕ → Balances
  | 0 => yearStep p z 0 (initialBalances p)
  | n + 1 => yearStep p z (n + 1) (balAt p z n)

/-- `yearsToSimulate = lifeExpectancy - currentAge` (App.jsx line 186);
negative when the parameters are malformed. -/
def yearsToSimulate (p : Params) : ℤ :=
  p.lifeExpectancy - p.currentAge

/-- One full trajectory: the per-year balances pushed by the loop
`for (year = 0; year <= yearsToSimulate; year++)` (App.jsx lines 203–331).
When `yearsToSimulate` is negative the loop body never runs and the
trajectory is empty. -/
def trajectory (p : Params) (z : ℕ → ℚ) : List Balances :=
  if yearsToSimulate p < 0 then []
  else (List.range ((yearsToSimulate p).toNat + 1)).map (balAt p z)

/-- `SIMULATIONS = 1000` (App.jsx line 184). -/
def SIMULATIONS : ℕ := 1000

/-- `allRuns` before the in-place sort (App.jsx lines 188–338): one
trajectory per simulation index. -/
def allRuns (p : Params) (zM : ℕ → ℕ → ℚ) : List (List Balances) :=
  (List.range SIMULATIONS).map fun sim => trajectory p (zM sim)

/-- `r.total[i]` for a run `r`; `0` stands in for the out-of-range
`undefined`, which is never hit when the horizon is non-negative. -/
def totalAt (r : List Balances) (i : ℕ) : ℚ :=
  (r.map Balances.total).getD i 0

/-- `allRuns.map(r => r.total[i]).sort((a,b) => a-b)` (App.jsx line 343). -/
def sortedTotalsAt (p : Params) (zM : ℕ → ℕ → ℚ) (i : ℕ) : List ℚ :=
  ((allRuns p zM).map fun r => totalAt r i).mergeSort

/-- One `probabilityData` entry (App.jsx lines 344–349). -/
structure BandPoint where
  age : ℤ
  p20 : ℚ
  p50 : ℚ
  p80 : ℚ
deriving DecidableEq

/-- `Math.floor(SIMULATIONS * frac)` as a natural index. -/
def pctIndex (frac : ℚ) : ℕ :=
  (⌊(SIMULATIONS : ℚ) * frac⌋).toNat

/-- The percentile band at age index `i` (App.jsx lines 343–349):
nearest-rank values of the ascending-sorted totals. -/
def bandAt (p : Params) (zM : ℕ → ℕ → ℚ) (i : ℕ) : BandPoint :=
  let yearValues := sortedTotalsAt p zM i
  { age := p.currentAge + (i : ℤ)
    p20 := yearValues.getD (pctIndex (2 / 10)) 0
    p50 := yearValues.getD (pctIndex (5 / 10)) 0
    p80 := yearValues.getD (pctIndex (8 / 10)) 0 }

/-- `probabilityData` (App.jsx lines 341–350), one band per age index. -/
def probabilityData (p : Params) (zM : ℕ → ℕ → ℚ) : List BandPoint :=
  if yearsToSimulate p < 0 then []
  else (List.range ((yearsToSimulate p).toNat + 1)).map (bandAt p zM)

/-- The success predicate of App.jsx line 378:
`run.total[run.total.length - 1] >= startTotalNetWorth`.  On an empty run
the JavaScript comparison is `undefined >= x`, which is false. -/
def runSucceeds (start : ℚ) (r : List Balances) : Bool :=
  match (r.map Balances.total).getLast? with
  | some t => decide (start ≤ t)
  | none => false

/-- `successCount` (App.jsx line 378). -/
def successCount (p : Params) (zM : ℕ → ℕ → ℚ) : ℕ :=
  ((allRuns p zM).filter (runSucceeds (startTotalNetWorth p))).length

/-- `successRate = (successCount / SIMULATIONS) * 100` (App.jsx line 379). -/
def successRate (p : Params) (zM : ℕ → ℕ → ℚ) : ℚ :=
  ((successCount p zM : ℚ) / (SIMULATIONS : ℚ)) * 100

/-- The `survivalAge` output (App.jsx lines 381–388): either a plain age,
or the open-ended string sentinel `lifeExpectancy + "+"`, modelled as a
separate constructor carrying the life expectancy. -/
inductive Survival where
  | atAge (a : ℤ)
  | beyond (lifeExp : ℤ)
deriving DecidableEq

/-- `survivalAge` (App.jsx lines 381–388): the age of the first
`probabilityData` entry with `p20 <= 0`, else the open-ended sentinel. -/
def survivalAge (p : Params) (zM : ℕ → ℕ → ℚ) : Survival :=
  match (probabilityData p zM).find? (fun d => decide (d.p20 ≤ 0)) with
  | some d => .atAge d.age
  | none => .beyond p.lifeExpectancy

/-- `probabilityData[probabilityData.length - 1].p50` (App.jsx line 394);
`none` models the `TypeError` thrown when `probabilityData` is empty. -/
def medianEndWealth (p : Params) (zM : ℕ → ℕ → ℚ) : Option ℚ :=
  ((probabilityData p zM).getLast?).map BandPoint.p50

/-- The fields of the `results` object relevant to the specification
(App.jsx lines 390–396), minus the representative-path breakdown. -/
structure AggregateResult where
  probabilityData : List BandPoint
  successRate : ℚ
  medianEndWealth : ℚ
  survivalAge : Survival
deriving DecidableEq

/-- Assembly of the `results` object (App.jsx lines 390–396).  `none`
models the uncaught `TypeError` raised while reading `medianEndWealth`
when the horizon is negative; no result is set in that case. -/
def runSimulation (p : Params) (zM : ℕ → ℕ → ℚ) : Option AggregateResult :=
  match medianEndWealth p zM with
  | none => none
  | some m => some ⟨probabilityData p zM, successRate p zM, m, survivalAge p zM⟩

/-- The initial `params` state (App.jsx lines 132–165). -/
def defaultParams : Params :=
  { currentAge := 35
    retirementAge := 65
    lifeExpectancy := 90
    taxableBalance := 50000
    taxableContribution := 5000
    preTaxBalance := 40000
    preTaxContribution := 10000
    rothBalance := 10000
    rothContribution := 6000
    minSpending := 40000
    discretionarySpending := 20000
    spendingCutFlexibility := 50
    fixedIncomeAnnual := 0
    fixedIncomeStartAge := 65
    expectedReturn := 9 / 2
    volatility := 15
    incomeTaxRate := 30
    capitalGainsInclusion := 50 }

/-- A zero standard-normal variate for every simulation and year, for
concrete evaluations of the batch. -/
def zZero : ℕ → ℕ → ℚ := fun _ _ => 0

/-- Default parameters with `currentAge = lifeExpectancy = 90`: a one-entry
trajectory per path, used to evaluate the aggregate pipeline concretely. -/
def pFlat : Params := { defaultParams with currentAge := 90 }

/-- Surplus scenario parameters: target spend 40000 (30000 essential +
10000 discretionary) against an active fixed income of 50000. -/
def pSurplus : Params :=
  { defaultParams with
    minSpending := 30000
    discretionarySpending := 10000
    fixedIncomeAnnual := 50000 }

/-- Bad-year deposit scenario parameters: target spend 60000 (all
discretionary, fully cuttable) against an active fixed income of 55000. -/
def pCutDeposit : Params :=
  { defaultParams with
    minSpending := 0
    discretionarySpending := 60000
    spendingCutFlexibility := 100
    fixedIncomeAnnual := 55000 }

/-- Malformed parameters: `lifeExpectancy < currentAge`, so the horizon
`yearsToSimulate` is negative. -/
def pBad : Params := { defaultParams with lifeExpectancy := 30 }

/-- Default parameters with the volatility set to zero. -/
def pNoVol : Params := { defaultParams with volatility := 0 }

/-! ### Helper lemmas -/

theorem pctIndex_two : pctIndex (2 / 10) = 200 := by
  norm_num [pctIndex, SIMULATIONS]; decide

theorem pctIndex_five : pctIndex (5 / 10) = 500 := by
  norm_num [pctIndex, SIMULATIONS]; decide

theorem pctIndex_eight : pctIndex (8 / 10) = 800 := by
  norm_num [pctIndex, SIMULATIONS]; decide

theorem length_allRuns (p : Params) (zM : ℕ → ℕ → ℚ) :
    (allRuns p zM).length = SIMULATIONS := by
  simp [allRuns]

theorem length_sortedTotalsAt (p : Params) (zM : ℕ → ℕ → ℚ) (i : ℕ) :
    (sortedTotalsAt p zM i).length = SIMULATIONS := by
  rw [sortedTotalsAt, (List.mergeSort_perm _ _).length_eq, List.length_map, length_allRuns]

theorem sorted_sortedTotalsAt (p : Params) (zM : ℕ → ℕ → ℚ) (i : ℕ) :
    (sortedTotalsAt p zM i).Sorted (· ≤ ·) :=
  List.sorted_mergeSort' _

theorem getD_mono_of_sorted {l : List ℚ} (h : l.Sorted (· ≤ ·)) {i j : ℕ}
    (hij : i ≤ j) (hj : j < l.length) : l.getD i 0 ≤ l.getD j 0 := by
  have hi : i < l.length := lt_of_le_of_lt hij hj
  rw [List.getD_eq_getElem?_getD, List.getElem?_eq_getElem hi,
    List.getD_eq_getElem?_getD, List.getElem?_eq_getElem hj]
  exact h.rel_get_of_le (show (⟨i, hi⟩ : Fin l.length) ≤ ⟨j, hj⟩ from hij)

theorem getD_replicate_of_lt {a : ℚ} {n i : ℕ} (h : i < n) :
    (List.replicate n a).getD i 0 = a := by
  rw [List.getD_eq_getElem?_getD, List.getElem?_replicate]
  simp [h]

theorem find?_eq_some_get_of_first {α : Type _} (l : List α) (q : α → Bool) :
    ∀ (i : ℕ) (hi : i < l.length), q (l.get ⟨i, hi⟩) = true →
      (∀ j (hj : j < i), ¬ q (l.get ⟨j, lt_trans hj hi⟩) = true) →
      l.find? q = some (l.get ⟨i, hi⟩) := by
  induction l with
  | nil => intro i hi; simp at hi
  | cons a t ih =>
    intro i hi hq hprev
    cases i with
    | zero => simpa [List.find?_cons_of_pos, hq] using List.find?_cons_of_pos t hq
    | succ k =>
      have ha : ¬ q a = true := hprev 0 (Nat.succ_pos k)
      rw [List.find?_cons_of_neg t (by simpa using ha)]
      exact ih k (Nat.lt_of_succ_lt_succ hi) hq
        (fun j hj => hprev (j + 1) (Nat.succ_lt_succ hj))

/-! ### Claim theorems -/

/-- C2: with net need 10000, taxable balance 5000, capital-gains inclusion
50% and income tax 30% (effective factor 0.85), the taxable stage of the
ordered withdrawal liquidates the taxable account entirely — the balance
becomes 0, the net contributed is 4250 = 5000 × 0.85 — and the remaining
net need handed to the pre-tax stage is exactly 5750. -/
theorem C2_taxable_liquidation (pre roth : ℚ) :
    taxableStep defaultParams (10000, ⟨5000, pre, roth⟩) = (5750, ⟨0, pre, roth⟩) ∧
    10000 - (taxableStep defaultParams (10000, ⟨5000, pre, roth⟩)).1 = 5000 * (85 / 100) ∧
    withdraw defaultParams 10000 ⟨5000, pre, roth⟩ =
      (rothStep (preTaxStep defaultParams (5750, ⟨0, pre, roth⟩))).2 := by
  have h : taxableStep defaultParams (10000, ⟨5000, pre, roth⟩) = (5750, ⟨0, pre, roth⟩) := by
    norm_num [taxableStep, defaultParams]
  refine ⟨h, ?_, ?_⟩
  · rw [h]; norm_num
  · rw [withdraw, h]

/-- C3: in a retired period that needs the portfolio (`portfolioNeed > 0`)
whose gain fell short (`gain < portfolioNeed`), the executed withdrawal is
`portfolioNeed - min (portfolioNeed - gain) (discretionarySpending *
spendingCutFlexibility / 100)`. -/
theorem C3_shortfall_cut (p : Params) (gain need : ℚ)
    (hneed : 0 < need) (hgain : gain < need) :
    actualPortfolioWithdrawal p gain need =
      need - min (need - gain) (p.discretionarySpending * (p.spendingCutFlexibility / 100)) := by
  rw [actualPortfolioWithdrawal, if_pos hneed, if_pos hgain]

/-- Witness for C3 at the claim's concrete numbers: portfolioNeed 60000,
gain 40000, discretionarySpending 20000, spendingCutFlexibility 50 give an
actual withdrawal of exactly 50000. -/
theorem C3_shortfall_cut_witness :
    (0 : ℚ) < 60000 ∧ (40000 : ℚ) < 60000 ∧
    actualPortfolioWithdrawal defaultParams 40000 60000 = 50000 := by
  refine ⟨by norm_num, by norm_num, ?_⟩
  rw [C3_shortfall_cut defaultParams 40000 60000 (by norm_num) (by norm_num)]
  norm_num [defaultParams]

/-- C4: whenever the adjusted portfolio withdrawal of a retired period is
negative, the cashflow deposits its absolute value into the taxable account
and leaves the pre-tax and roth balances untouched. -/
theorem C4_surplus_to_taxable (p : Params) (age : ℤ) (startTotal : ℚ) (b : Balances)
    (hneg : actualPortfolioWithdrawal p (b.total - startTotal) (portfolioNeed p age) < 0) :
    (decumulate p age startTotal b).taxable =
      b.taxable + |actualPortfolioWithdrawal p (b.total - startTotal) (portfolioNeed p age)| ∧
    (decumulate p age startTotal b).pretax = b.pretax ∧
    (decumulate p age startTotal b).roth = b.roth := by
  rw [decumulate]
  simp [if_pos hneg]

/-- Witness for C4 at the claim's concrete numbers: active fixed income
50000 against a target spend of 40000 makes the withdrawal -10000, and the
taxable balance rises by exactly 10000 with pre-tax and roth unchanged. -/
theorem C4_surplus_to_taxable_witness :
    actualPortfolioWithdrawal pSurplus ((Balances.total ⟨100, 200, 300⟩) - 0)
        (portfolioNeed pSurplus 70) < 0 ∧
    (decumulate pSurplus 70 0 ⟨100, 200, 300⟩).taxable = 100 + 10000 ∧
    (decumulate pSurplus 70 0 ⟨100, 200, 300⟩).pretax = 200 ∧
    (decumulate pSurplus 70 0 ⟨100, 200, 300⟩).roth = 300 := by
  have hneed : portfolioNeed pSurplus 70 = -10000 := by
    norm_num [portfolioNeed, currentFixedIncome, pSurplus, defaultParams]
  have hneg : actualPortfolioWithdrawal pSurplus ((Balances.total ⟨100, 200, 300⟩) - 0)
      (portfolioNeed pSurplus 70) < 0 := by
    rw [hneed]; norm_num [actualPortfolioWithdrawal]
  have h := C4_surplus_to_taxable pSurplus 70 0 ⟨100, 200, 300⟩ hneg
  refine ⟨hneg, ?_, h.2.1, h.2.2⟩
  rw [h.1, hneed]
  norm_num [actualPortfolioWithdrawal]

/-- C10: a concrete retired period with `portfolioNeed = 5000 > 0`, a
negative gain of -10000 and a cut ceiling of 60000 > portfolioNeed drives
the adjusted withdrawal to -10000, and the engine deposits those 10000
into the taxable account — even though the fixed income (55000) does not
exceed the spending target (60000). -/
theorem C10_bad_year_deposits_into_taxable :
    portfolioNeed pCutDeposit 70 = 5000 ∧
    (Balances.total ⟨100000, 50000, 25000⟩) - 185000 = -10000 ∧
    pCutDeposit.discretionarySpending * (pCutDeposit.spendingCutFlexibility / 100) = 60000 ∧
    actualPortfolioWithdrawal pCutDeposit (-10000) 5000 = -10000 ∧
    currentFixedIncome pCutDeposit 70 = 55000 ∧
    pCutDeposit.minSpending + pCutDeposit.discretionarySpending = 60000 ∧
    decumulate pCutDeposit 70 185000 ⟨100000, 50000, 25000⟩ = ⟨110000, 50000, 25000⟩ := by
  refine ⟨?_, ?_, ?_, ?_, ?_, ?_, ?_⟩
  · norm_num [portfolioNeed, currentFixedIncome, pCutDeposit, defaultParams]
  · norm_num [Balances.total]
  · norm_num [pCutDeposit, defaultParams]
  · norm_num [actualPortfolioWithdrawal, pCutDeposit, defaultParams]
  · norm_num [currentFixedIncome, pCutDeposit, defaultParams]
  · norm_num [pCutDeposit, defaultParams]
  · have hneed : portfolioNeed pCutDeposit 70 = 5000 := by
      norm_num [portfolioNeed, currentFixedIncome, pCutDeposit, defaultParams]
    have hgain : (⟨100000, 50000, 25000⟩ : Balances).total - 185000 = (-10000 : ℚ) := by
      norm_num [Balances.total]
    have haw : actualPortfolioWithdrawal pCutDeposit (-10000) 5000 = -10000 := by
      norm_num [actualPortfolioWithdrawal, pCutDeposit, defaultParams]
    simp only [decumulate, hgain, hneed, haw]
    norm_num

/-- C5: every balance recorded in a trajectory — taxable, pre-tax, roth,
and hence the total — is non-negative, because every recorded entry is the
output of the unconditional floor-at-zero step. -/
theorem C5_floor_invariant (p : Params) (z : ℕ → ℚ) (b : Balances)
    (hb : b ∈ trajectory p z) :
    0 ≤ b.taxable ∧ 0 ≤ b.pretax ∧ 0 ≤ b.roth ∧ 0 ≤ b.total := by
  have hfz : ∃ c, b = floorZero c := by
    rw [trajectory] at hb
    by_cases hy : yearsToSimulate p < 0
    · rw [if_pos hy] at hb; simp at hb
    · rw [if_neg hy] at hb
      obtain ⟨n, -, hn⟩ := List.mem_map.mp hb
      cases n with
      | zero => exact ⟨_, hn.symm⟩
      | succ k => exact ⟨_, hn.symm⟩
  obtain ⟨c, rfl⟩ := hfz
  refine ⟨le_max_right _ _, le_max_right _ _, le_max_right _ _, ?_⟩
  have h1 : (0 : ℚ) ≤ max c.taxable 0 := le_max_right _ _
  have h2 : (0 : ℚ) ≤ max c.pretax 0 := le_max_right _ _
  have h3 : (0 : ℚ) ≤ max c.roth 0 := le_max_right _ _
  exact add_nonneg (add_nonneg h1 h2) h3

/-- Witness for C5: the single recorded entry of the flat scenario is a
member of its trajectory and satisfies the floor invariant. -/
theorem C5_floor_invariant_witness :
    (⟨50000, 40000, 10000⟩ : Balances) ∈ trajectory pFlat (fun _ => 0) ∧
    (0 ≤ (⟨50000, 40000, 10000⟩ : Balances).taxable ∧
     0 ≤ (⟨50000, 40000, 10000⟩ : Balances).pretax ∧
     0 ≤ (⟨50000, 40000, 10000⟩ : Balances).roth ∧
     0 ≤ (⟨50000, 40000, 10000⟩ : Balances).total) :=
  ⟨by decide, C5_floor_invariant pFlat (fun _ => 0) _ (by decide)⟩

/-! ### Flat-scenario evaluation helpers -/

theorem trajectory_pFlat : trajectory pFlat (fun _ => 0) = [⟨50000, 40000, 10000⟩] := by
  decide

theorem allRuns_pFlat :
    allRuns pFlat zZero = List.replicate SIMULATIONS [(⟨50000, 40000, 10000⟩ : Balances)] := by
  show (List.range SIMULATIONS).map (fun _ => trajectory pFlat (fun _ => 0)) = _
  rw [trajectory_pFlat, List.map_const', List.length_range]

theorem runSucceeds_pFlat :
    runSucceeds (startTotalNetWorth pFlat) [(⟨50000, 40000, 10000⟩ : Balances)] = true := by
  simp [runSucceeds, startTotalNetWorth, pFlat, defaultParams, Balances.total]

theorem SIMULATIONS_eq : SIMULATIONS = 1000 := rfl

theorem SIMULATIONS_cast : ((SIMULATIONS : ℕ) : ℚ) = 1000 := by
  rw [SIMULATIONS_eq]; norm_num

theorem successCount_pFlat : successCount pFlat zZero = 1000 := by
  rw [successCount, allRuns_pFlat, List.filter_replicate, runSucceeds_pFlat]
  rw [if_pos rfl, List.length_replicate, SIMULATIONS_eq]

theorem successRate_pFlat : successRate pFlat zZero = 100 := by
  rw [successRate, successCount_pFlat, SIMULATIONS_cast]
  norm_num

/-- C1 counterexample: in the flat scenario every one of the 1000 paths
ends at its initial net worth, so the count-over-N fraction is 1, but the
returned successRate is 100 — the code multiplies the fraction by 100, so
the claim "successRate equals count / N, a fraction in [0, 1]" fails. -/
theorem C1_counterexample :
    successRate pFlat zZero = 100 ∧
    (successCount pFlat zZero : ℚ) / (SIMULATIONS : ℚ) = 1 ∧
    successRate pFlat zZero ≠ (successCount pFlat zZero : ℚ) / (SIMULATIONS : ℚ) ∧
    ¬ successRate pFlat zZero ≤ 1 := by
  have hc := successCount_pFlat
  have hr := successRate_pFlat
  refine ⟨hr, ?_, ?_, ?_⟩
  · rw [hc, SIMULATIONS_cast]; norm_num
  · rw [hr, hc, SIMULATIONS_cast]; norm_num
  · rw [hr]; norm_num

/-- C1 amended: the returned successRate is the count-over-N fraction
multiplied by 100 — a percentage: it always lies in [0, 100], with the
success count never exceeding the number of simulations. -/
theorem C1_successRate_is_percentage (p : Params) (zM : ℕ → ℕ → ℚ) :
    successRate p zM = ((successCount p zM : ℚ) / (SIMULATIONS : ℚ)) * 100 ∧
    successCount p zM ≤ SIMULATIONS ∧
    0 ≤ successRate p zM ∧ successRate p zM ≤ 100 := by
  have hcount : successCount p zM ≤ SIMULATIONS := by
    rw [successCount]
    calc ((allRuns p zM).filter (runSucceeds (startTotalNetWorth p))).length
        ≤ (allRuns p zM).length := List.length_filter_le _ _
      _ = SIMULATIONS := length_allRuns p zM
  refine ⟨rfl, hcount, ?_, ?_⟩
  · rw [successRate, SIMULATIONS_cast]
    have h0 : (0 : ℚ) ≤ (successCount p zM : ℚ) / 1000 :=
      div_nonneg (Nat.cast_nonneg _) (by norm_num)
    exact mul_nonneg h0 (by norm_num)
  · rw [successRate, SIMULATIONS_cast]
    have h1 : ((successCount p zM : ℚ)) ≤ 1000 := by
      rw [← SIMULATIONS_cast]; exact_mod_cast hcount
    have h3 : (successCount p zM : ℚ) / 1000 ≤ 1 := by
      rw [div_le_one (by norm_num : (0 : ℚ) < 1000)]; exact h1
    calc (successCount p zM : ℚ) / 1000 * 100 ≤ 1 * 100 :=
          mul_le_mul_of_nonneg_right h3 (by norm_num)
      _ = 100 := one_mul 100

theorem sortedTotals_pFlat :
    sortedTotalsAt pFlat zZero 0 = List.replicate SIMULATIONS 100000 := by
  rw [sortedTotalsAt, allRuns_pFlat, List.map_replicate]
  have ht : totalAt [(⟨50000, 40000, 10000⟩ : Balances)] 0 = 100000 := by
    norm_num [totalAt, Balances.total]
  rw [ht]
  exact List.mergeSort_eq_self (List.pairwise_replicate.mpr (Or.inr le_rfl))

theorem bandAt_pFlat : bandAt pFlat zZero 0 = ⟨90, 100000, 100000, 100000⟩ := by
  have h20 : (List.replicate SIMULATIONS (100000 : ℚ)).getD (pctIndex (2 / 10)) 0 = 100000 :=
    getD_replicate_of_lt (by rw [pctIndex_two, SIMULATIONS_eq]; norm_num)
  have h50 : (List.replicate SIMULATIONS (100000 : ℚ)).getD (pctIndex (5 / 10)) 0 = 100000 :=
    getD_replicate_of_lt (by rw [pctIndex_five, SIMULATIONS_eq]; norm_num)
  have h80 : (List.replicate SIMULATIONS (100000 : ℚ)).getD (pctIndex (8 / 10)) 0 = 100000 :=
    getD_replicate_of_lt (by rw [pctIndex_eight, SIMULATIONS_eq]; norm_num)
  simp only [bandAt, sortedTotals_pFlat, h20, h50, h80]
  norm_num [pFlat, defaultParams]

theorem probData_pFlat :
    probabilityData pFlat zZero = [⟨90, 100000, 100000, 100000⟩] := by
  have hy : yearsToSimulate pFlat = 0 := by decide
  rw [probabilityData, hy]
  norm_num
  rw [show List.range 1 = [0] from rfl, List.map_singleton, bandAt_pFlat]

/-- C6: every entry of the probability-band output has ordered percentiles
`p20 ≤ p50 ≤ p80`: they are nearest-rank reads at indices 200 ≤ 500 ≤ 800
of the same ascending-sorted 1000-element list of totals. -/
theorem C6_percentile_order (p : Params) (zM : ℕ → ℕ → ℚ) (d : BandPoint)
    (hd : d ∈ probabilityData p zM) :
    d.p20 ≤ d.p50 ∧ d.p50 ≤ d.p80 := by
  rw [probabilityData] at hd
  by_cases hy : yearsToSimulate p < 0
  · rw [if_pos hy] at hd; simp at hd
  · rw [if_neg hy] at hd
    obtain ⟨i, -, rfl⟩ := List.mem_map.mp hd
    have hs := sorted_sortedTotalsAt p zM i
    have hlen : (sortedTotalsAt p zM i).length = 1000 := by
      rw [length_sortedTotalsAt, SIMULATIONS_eq]
    constructor
    · exact getD_mono_of_sorted hs
        (by rw [pctIndex_two, pctIndex_five]; norm_num)
        (by rw [pctIndex_five, hlen]; norm_num)
    · exact getD_mono_of_sorted hs
        (by rw [pctIndex_five, pctIndex_eight]; norm_num)
        (by rw [pctIndex_eight, hlen]; norm_num)

/-- Witness for C6: the flat scenario's single band entry is a member of
the probability data and has ordered percentiles. -/
theorem C6_percentile_order_witness :
    (⟨90, 100000, 100000, 100000⟩ : BandPoint) ∈ probabilityData pFlat zZero ∧
    ((⟨90, 100000, 100000, 100000⟩ : BandPoint).p20 ≤
      (⟨90, 100000, 100000, 100000⟩ : BandPoint).p50 ∧
     (⟨90, 100000, 100000, 100000⟩ : BandPoint).p50 ≤
      (⟨90, 100000, 100000, 100000⟩ : BandPoint).p80) := by
  have hmem : (⟨90, 100000, 100000, 100000⟩ : BandPoint) ∈ probabilityData pFlat zZero := by
    rw [probData_pFlat]; exact List.mem_singleton.mpr rfl
  exact ⟨hmem, C6_percentile_order pFlat zZero _ hmem⟩

/-- C7: the survivalAge output is the age of the first probability-band
entry whose p20 is ≤ 0; when every entry has a positive p20, the
open-ended sentinel carrying the life expectancy is returned instead of a
plain age. -/
theorem C7_survival_age (p : Params) (zM : ℕ → ℕ → ℚ) :
    ((∀ d ∈ probabilityData p zM, 0 < d.p20) →
      survivalAge p zM = Survival.beyond p.lifeExpectancy) ∧
    (∀ (i : ℕ) (hi : i < (probabilityData p zM).length),
      ((probabilityData p zM).get ⟨i, hi⟩).p20 ≤ 0 →
      (∀ (j : ℕ) (hj : j < i), 0 < ((probabilityData p zM).get ⟨j, lt_trans hj hi⟩).p20) →
      survivalAge p zM = Survival.atAge (((probabilityData p zM).get ⟨i, hi⟩).age)) := by
  constructor
  · intro hall
    have hnone : (probabilityData p zM).find? (fun d => decide (d.p20 ≤ 0)) = none := by
      refine List.find?_eq_none.mpr fun d hd => ?_
      simpa using not_le.mpr (hall d hd)
    rw [survivalAge, hnone]
  · intro i hi hle hprev
    have hsome : (probabilityData p zM).find? (fun d => decide (d.p20 ≤ 0)) =
        some ((probabilityData p zM).get ⟨i, hi⟩) := by
      refine find?_eq_some_get_of_first _ _ i hi (by simpa using hle) fun j hj => ?_
      simpa using not_le.mpr (hprev j hj)
    rw [survivalAge, hsome]

/-- Witness for C7: in the flat scenario every band entry has p20 > 0, so
the open-ended sentinel with the life expectancy (90) is returned. -/
theorem C7_survival_age_witness :
    (∀ d ∈ probabilityData pFlat zZero, 0 < d.p20) ∧
    survivalAge pFlat zZero = Survival.beyond 90 := by
  have hall : ∀ d ∈ probabilityData pFlat zZero, 0 < d.p20 := by
    intro d hd
    rw [probData_pFlat] at hd
    rw [List.mem_singleton.mp hd]
    norm_num
  exact ⟨hall, (C7_survival_age pFlat zZero).1 hall⟩

/-! ### Negative-horizon helpers -/

theorem trajectory_eq_nil_of_neg (p : Params) (z : ℕ → ℚ) (h : yearsToSimulate p < 0) :
    trajectory p z = [] := by
  rw [trajectory, if_pos h]

theorem probData_eq_nil_of_neg (p : Params) (zM : ℕ → ℕ → ℚ) (h : yearsToSimulate p < 0) :
    probabilityData p zM = [] := by
  rw [probabilityData, if_pos h]

theorem allRuns_of_neg (p : Params) (zM : ℕ → ℕ → ℚ) (h : yearsToSimulate p < 0) :
    allRuns p zM = List.replicate SIMULATIONS [] := by
  rw [allRuns]
  rw [List.map_congr_left fun s _ => trajectory_eq_nil_of_neg p (zM s) h]
  rw [List.map_const', List.length_range]

theorem successRate_of_neg (p : Params) (zM : ℕ → ℕ → ℚ) (h : yearsToSimulate p < 0) :
    successCount p zM = 0 ∧ successRate p zM = 0 := by
  have hc : successCount p zM = 0 := by
    rw [successCount, allRuns_of_neg p zM h, List.filter_replicate]
    rw [show runSucceeds (startTotalNetWorth p) [] = false from rfl]
    simp
  refine ⟨hc, ?_⟩
  rw [successRate, hc]
  norm_num

theorem survivalAge_of_neg (p : Params) (zM : ℕ → ℕ → ℚ) (h : yearsToSimulate p < 0) :
    survivalAge p zM = Survival.beyond p.lifeExpectancy := by
  rw [survivalAge, probData_eq_nil_of_neg p zM h]
  rfl

theorem runSimulation_of_neg (p : Params) (zM : ℕ → ℕ → ℚ) (h : yearsToSimulate p < 0) :
    runSimulation p zM = none := by
  have hmew : medianEndWealth p zM = none := by
    rw [medianEndWealth, probData_eq_nil_of_neg p zM h]
    rfl
  rw [runSimulation, hmew]

/-- C8 counterexample: the claim says the engine validates its inputs and
never silently computes with a negative horizon.  With
`lifeExpectancy = 30 < currentAge = 35` the horizon is the negative -5,
yet the engine runs anyway: it silently produces `successRate = 0` and the
open-ended survival sentinel from 1000 empty trajectories, and the result
assembly then dies on the out-of-range read of the final p50 (the `none`)
instead of any entry-point check. -/
theorem C8_counterexample :
    yearsToSimulate pBad = -5 ∧
    trajectory pBad (fun _ => 0) = [] ∧
    successRate pBad zZero = 0 ∧
    survivalAge pBad zZero = Survival.beyond 30 ∧
    runSimulation pBad zZero = none := by
  have h : yearsToSimulate pBad < 0 := by decide
  exact ⟨by decide, trajectory_eq_nil_of_neg pBad _ h, (successRate_of_neg pBad zZero h).2,
    survivalAge_of_neg pBad zZero h, runSimulation_of_neg pBad zZero h⟩

/-- C8 amended: the engine has no entry-point validation.  For any
parameter set with a negative horizon it silently computes with it: every
trajectory and the probability data are empty, successRate evaluates to 0,
survivalAge to the open-ended sentinel, and the final result assembly
fails (the modelled `none`, an uncaught TypeError on reading the final
p50) rather than clamping or signalling an invalid-parameter condition. -/
theorem C8_no_validation_negative_horizon (p : Params) (zM : ℕ → ℕ → ℚ)
    (h : yearsToSimulate p < 0) :
    (∀ z, trajectory p z = []) ∧
    probabilityData p zM = [] ∧
    successRate p zM = 0 ∧
    survivalAge p zM = Survival.beyond p.lifeExpectancy ∧
    runSimulation p zM = none :=
  ⟨fun z => trajectory_eq_nil_of_neg p z h, probData_eq_nil_of_neg p zM h,
    (successRate_of_neg p zM h).2, survivalAge_of_neg p zM h, runSimulation_of_neg p zM h⟩

/-- Witness for the amended C8 at the concrete malformed parameter set
with `lifeExpectancy = 30 < currentAge = 35`. -/
theorem C8_no_validation_negative_horizon_witness :
    yearsToSimulate pBad < 0 ∧
    (probabilityData pBad zZero = [] ∧ successRate pBad zZero = 0 ∧
      runSimulation pBad zZero = none) := by
  have h : yearsToSimulate pBad < 0 := by decide
  have hmain := C8_no_validation_negative_horizon pBad zZero h
  exact ⟨h, hmain.2.1, hmain.2.2.1, hmain.2.2.2.2⟩

/-! ### Zero-volatility helpers -/

theorem yearStep_vol0 (p : Params) (hvol : p.volatility = 0) (z z' : ℕ → ℚ) (y : ℕ)
    (b : Balances) : yearStep p z y b = yearStep p z' y b := by
  simp [yearStep, hvol, generateGaussian]

theorem balAt_vol0 (p : Params) (hvol : p.volatility = 0) (z z' : ℕ → ℚ) :
    ∀ n, balAt p z n = balAt p z' n := by
  intro n
  induction n with
  | zero => simp only [balAt]; exact yearStep_vol0 p hvol z z' 0 _
  | succ k ih =>
    simp only [balAt]
    rw [ih]
    exact yearStep_vol0 p hvol z z' (k + 1) _

theorem trajectory_vol0 (p : Params) (hvol : p.volatility = 0) (z z' : ℕ → ℚ) :
    trajectory p z = trajectory p z' := by
  rw [trajectory, trajectory]
  by_cases hy : yearsToSimulate p < 0
  · rw [if_pos hy, if_pos hy]
  · rw [if_neg hy, if_neg hy]
    exact List.map_congr_left fun n _ => balAt_vol0 p hvol z z' n

theorem allRuns_vol0 (p : Params) (hvol : p.volatility = 0) (zM : ℕ → ℕ → ℚ) :
    allRuns p zM = List.replicate SIMULATIONS (trajectory p (zM 0)) := by
  rw [allRuns]
  rw [List.map_congr_left fun s _ => trajectory_vol0 p hvol (zM s) (zM 0)]
  rw [List.map_const', List.length_range]

theorem sortedTotals_vol0 (p : Params) (hvol : p.volatility = 0) (zM : ℕ → ℕ → ℚ) (i : ℕ) :
    sortedTotalsAt p zM i =
      List.replicate SIMULATIONS (totalAt (trajectory p (zM 0)) i) := by
  rw [sortedTotalsAt, allRuns_vol0 p hvol zM, List.map_replicate]
  exact List.mergeSort_eq_self (List.pairwise_replicate.mpr (Or.inr le_rfl))

/-- C9: with volatility 0 every sampled return degenerates to the mean, so
all 1000 trajectories coincide, every band entry has p20 = p50 = p80, and
the successRate sits at one of its two extremes (0 or 100: every path
succeeds or every path fails together). -/
theorem C9_zero_volatility (p : Params) (zM : ℕ → ℕ → ℚ)
    (hvol : p.volatility = 0) (hret : 0 < p.expectedReturn) :
    (∀ zv : ℚ, generateGaussian (p.expectedReturn / 100) (p.volatility / 100) zv =
      p.expectedReturn / 100) ∧
    (∀ z z' : ℕ → ℚ, trajectory p z = trajectory p z') ∧
    (∀ d ∈ probabilityData p zM, d.p20 = d.p50 ∧ d.p50 = d.p80) ∧
    (successRate p zM = 0 ∨ successRate p zM = 100) := by
  refine ⟨?_, fun z z' => trajectory_vol0 p hvol z z', ?_, ?_⟩
  · intro zv
    rw [hvol]
    simp [generateGaussian]
  · intro d hd
    rw [probabilityData] at hd
    by_cases hy : yearsToSimulate p < 0
    · rw [if_pos hy] at hd; simp at hd
    · rw [if_neg hy] at hd
      obtain ⟨i, -, rfl⟩ := List.mem_map.mp hd
      have e20 : (bandAt p zM i).p20 = totalAt (trajectory p (zM 0)) i := by
        show (sortedTotalsAt p zM i).getD (pctIndex (2 / 10)) 0 = _
        rw [sortedTotals_vol0 p hvol zM i]
        exact getD_replicate_of_lt (by rw [pctIndex_two, SIMULATIONS_eq]; norm_num)
      have e50 : (bandAt p zM i).p50 = totalAt (trajectory p (zM 0)) i := by
        show (sortedTotalsAt p zM i).getD (pctIndex (5 / 10)) 0 = _
        rw [sortedTotals_vol0 p hvol zM i]
        exact getD_replicate_of_lt (by rw [pctIndex_five, SIMULATIONS_eq]; norm_num)
      have e80 : (bandAt p zM i).p80 = totalAt (trajectory p (zM 0)) i := by
        show (sortedTotalsAt p zM i).getD (pctIndex (8 / 10)) 0 = _
        rw [sortedTotals_vol0 p hvol zM i]
        exact getD_replicate_of_lt (by rw [pctIndex_eight, SIMULATIONS_eq]; norm_num)
      rw [e20, e50, e80]
      exact ⟨rfl, rfl⟩
  · rw [successRate, successCount, allRuns_vol0 p hvol zM, List.filter_replicate]
    by_cases hq : runSucceeds (startTotalNetWorth p) (trajectory p (zM 0)) = true
    · right
      rw [if_pos hq, List.length_replicate, SIMULATIONS_cast]
      norm_num
    · left
      rw [if_neg hq]
      norm_num

/-- Witness for C9 at the default parameters with the volatility set to
zero: the successRate of the batch is at one of its two extremes. -/
theorem C9_zero_volatility_witness :
    pNoVol.volatility = 0 ∧ 0 < pNoVol.expectedReturn ∧
    (successRate pNoVol zZero = 0 ∨ successRate pNoVol zZero = 100) := by
  have hret : 0 < pNoVol.expectedReturn := by norm_num [pNoVol, defaultParams]
  exact ⟨rfl, hret, (C9_zero_volatility pNoVol zZero rfl hret).2.2.2⟩

end WealthSim
